import Mathlib

/-!
# Verification of the DRAMSys metric-extraction scripts

A shallow embedding of the three Python scripts under `experiments/`:

* `extract_tdb_metrics.py` — the glob-based extractor (filename parser,
  generic last-column aggregate reader, per-file CSV row emission);
* `extractor.py`           — the manifest-based extractor (named-column
  aggregate queries, read/write split with fallback, channel loop);
* `summarize_invalid_reasons.py` — the invalid-reason tallier.

SQLite databases are modelled as association lists of tables; a table is its
declared column list together with its rows.  A query either fails
structurally (`Except.error`, corresponding to `sqlite3.OperationalError` /
`sqlite3.Error` being raised) or yields a value, where SQL `NULL` is
`SqlVal.null`.
-/

namespace DRAMSys

/-- An SQLite value: `NULL`, a numeric value, or a text value.
Numbers are modelled by `ℚ` (covering SQLite INTEGER and the REAL values the
simulator writes); BLOBs and SQLite's text-to-number coercions are outside the
data these scripts touch, so a text value aggregated by `AVG` coerces to `0`
here (the metric tables hold only numbers or `NULL`). -/
inductive SqlVal where
  | null
  | num (q : ℚ)
  | text (s : String)
deriving DecidableEq, Repr

/-- A table: its declared columns (in declaration order, as reported by
`PRAGMA table_info`) and its rows, each row listing one value per column. -/
structure Table where
  cols : List String
  rows : List (List SqlVal)
deriving DecidableEq, Repr

instance {ε α : Type} [DecidableEq ε] [DecidableEq α] :
    DecidableEq (Except ε α) := fun x y =>
  match x, y with
  | .ok a, .ok b =>
    if h : a = b then isTrue (by rw [h])
    else isFalse fun hc => h (by injection hc)
  | .error a, .error b =>
    if h : a = b then isTrue (by rw [h])
    else isFalse fun hc => h (by injection hc)
  | .ok _, .error _ => isFalse fun hc => Except.noConfusion hc
  | .error _, .ok _ => isFalse fun hc => Except.noConfusion hc

/-- A database: an association list from table names to tables. -/
abbrev Db : Type := List (String × Table)

/-- A database with no tables at all. -/
def emptyDb : Db := []

/-- Look a table up by name (`none` when the table does not exist). -/
def lookupTable (db : Db) (name : String) : Option Table :=
  (List.find? (fun p => p.1 == name) db).map (·.2)

/-- `PRAGMA table_info(t)`: the declared columns of `t`, `[]` when the table
does not exist (the pragma returns zero rows rather than raising). -/
def tableCols (db : Db) (name : String) : List String :=
  match lookupTable db name with
  | none => []
  | some t => t.cols

/-- The values of column `c` of table `t`, top to bottom; `none` when `c` is
not a declared column (referencing it in SQL raises). A short row reads as
`NULL` in the missing positions. -/
def colValues (t : Table) (c : String) : Option (List SqlVal) :=
  (t.cols.findIdx? (· == c)).map (fun i => t.rows.map (fun r => r.getD i .null))

/-- Numeric coercion used by `AVG`: `NULL` is ignored, numbers stand for
themselves, text coerces to `0` (see `SqlVal`). -/
def toReal : SqlVal → Option ℚ
  | .null => none
  | .num q => some q
  | .text _ => some 0

/-- Addition on `ℚ` written out on numerators and denominators (computes
where the library's `Rat.add` is `@[irreducible]`); `ratAdd_eq_add` proves it
is ordinary addition. -/
def ratAdd (a b : ℚ) : ℚ :=
  Rat.divInt (a.num * b.den + b.num * a.den) (a.den * b.den)

/-- Division on `ℚ` written out on numerators and denominators;
`ratDiv_eq_div` proves it is ordinary division. -/
def ratDiv (a b : ℚ) : ℚ :=
  Rat.divInt (a.num * b.den) (a.den * b.num)

/-- The sum of a list of rationals, via `ratAdd`. -/
def ratSum (l : List ℚ) : ℚ :=
  l.foldr ratAdd 0

/-- SQL `AVG` over a column: `NULL` when no non-`NULL` value exists, otherwise
the mean of the coerced values. -/
def sqlAvg (vs : List SqlVal) : SqlVal :=
  let ns := vs.filterMap toReal
  if ns.isEmpty then .null
  else .num (Rat.divInt (ratSum ns).num ((ratSum ns).den * ns.length : Nat))

/-- SQLite's value ordering on non-`NULL` values: every number sorts before
every text, numbers by `≤` on `ℚ`, texts by code-point order. -/
def valLe : SqlVal → SqlVal → Bool
  | .null, _ => true
  | _, .null => false
  | .num a, .num b => a ≤ b
  | .num _, .text _ => true
  | .text _, .num _ => false
  | .text a, .text b => a ≤ b

/-- SQL `MAX` over a column: `NULL` values are ignored; `NULL` when nothing
remains, otherwise the greatest value under `valLe`. -/
def sqlMax (vs : List SqlVal) : SqlVal :=
  match vs.filter (fun v => v != .null) with
  | [] => .null
  | x :: xs => xs.foldl (fun acc v => if valLe acc v then v else acc) x

/-- `SELECT AVG(col) FROM tbl`: structural error when the table or the column
is missing, otherwise the aggregate (an aggregate query always yields exactly
one row). -/
def qAvg (db : Db) (tbl col : String) : Except Unit SqlVal :=
  match lookupTable db tbl with
  | none => .error ()
  | some t =>
    match colValues t col with
    | none => .error ()
    | some vs => .ok (sqlAvg vs)

/-- `SELECT MAX(col) FROM tbl`: structural error when the table or the column
is missing, otherwise the aggregate. -/
def qMaxCol (db : Db) (tbl col : String) : Except Unit SqlVal :=
  match lookupTable db tbl with
  | none => .error ()
  | some t =>
    match colValues t col with
    | none => .error ()
    | some vs => .ok (sqlMax vs)

/-- `SELECT COUNT(*) FROM tbl`: structural error when the table is missing,
otherwise the row count (never `NULL`). -/
def qCount (db : Db) (tbl : String) : Except Unit SqlVal :=
  match lookupTable db tbl with
  | none => .error ()
  | some t => .ok (.num t.rows.length)

/-- `SELECT COUNT(*) FROM tbl WHERE col <pred>`: structural error when the
table or the column is missing, otherwise the number of rows whose `col`
value satisfies the predicate. -/
def qCountWhere (db : Db) (tbl col : String) (pred : SqlVal → Bool) :
    Except Unit SqlVal :=
  match lookupTable db tbl with
  | none => .error ()
  | some t =>
    match colValues t col with
    | none => .error ()
    | some vs => .ok (.num (vs.filter pred).length)

/-- `SELECT * FROM tbl` followed by `fetchone()`: structural error when the
table is missing, otherwise the first row if any. -/
def qSelectStarFirst (db : Db) (tbl : String) :
    Except Unit (Option (List SqlVal)) :=
  match lookupTable db tbl with
  | none => .error ()
  | some t => .ok t.rows.head?

/-!
## `extract_tdb_metrics.py` — generic aggregate reader
-/

/-- `get_numeric_agg(conn, table_name)`: read the declared columns via
`PRAGMA table_info`; when there are none (table missing or empty schema),
return `(NULL, NULL)`.  Otherwise take the **last** declared column and run
`SELECT AVG(c), MAX(c)`; any `sqlite3.Error` is absorbed into
`(NULL, NULL)`.  The function is total: it never raises. -/
def get_numeric_agg (db : Db) (table_name : String) : SqlVal × SqlVal :=
  let cols := tableCols db table_name
  match cols.getLast? with
  | none => (.null, .null)
  | some value_col =>
    match qAvg db table_name value_col, qMaxCol db table_name value_col with
    | .ok a, .ok m => (a, m)
    | _, _ => (.null, .null)

/-- `get_transaction_count(conn)`: `COUNT(*)` over `Transactions`, with any
`sqlite3.Error` absorbed into `None`. -/
def get_transaction_count (db : Db) : Option SqlVal :=
  match qCount db "Transactions" with
  | .ok v => some v
  | .error _ => none

/-!
## Python string helpers
-/

/-- Split a character list at every occurrence of `sep`, keeping empty
pieces, exactly like Python `str.split(sep)` (so `[]` yields `[[]]`). -/
def splitChars (sep : Char) : List Char → List (List Char)
  | [] => [[]]
  | c :: cs =>
    match splitChars sep cs with
    | [] => [[]]
    | p :: ps => if c == sep then [] :: p :: ps else (c :: p) :: ps

/-- Python `s.split(sep)` for a one-character separator. -/
def pySplit (sep : Char) (s : String) : List String :=
  (splitChars sep s.toList).map String.mk

/-- Python `s.startswith(pre)`. -/
def strStartsWith (s pre : String) : Bool :=
  pre.toList.isPrefixOf s.toList

/-- Python `s.endswith(suf)`. -/
def strEndsWith (s suf : String) : Bool :=
  suf.toList.isSuffixOf s.toList

/-- `os.path.basename`: everything after the last `/` (the whole string when
there is no `/`). -/
def basename (path : String) : String :=
  (pySplit '/' path).getLastD ""

/-- The value of a nonempty all-digit character list, `none` otherwise. -/
def digitsToNat? (cs : List Char) : Option Nat :=
  if cs ≠ [] ∧ cs.all (·.isDigit) then
    some (cs.foldl (fun n c => 10 * n + (c.toNat - '0'.toNat)) 0)
  else none

/-- Python `int(s)` on an underscore- and whitespace-free token: an optional
sign followed by one or more ASCII digits; anything else raises `ValueError`
(`none` here). -/
def pyIntOfStr (s : String) : Option Int :=
  match s.toList with
  | '-' :: cs => (digitsToNat? cs).map (fun n => -(n : Int))
  | '+' :: cs => (digitsToNat? cs).map (fun n => (n : Int))
  | cs => (digitsToNat? cs).map (fun n => (n : Int))

/-- Python `s.strip()`: drop leading and trailing whitespace. -/
def pyStrip (s : String) : String :=
  String.mk
    ((((s.toList.dropWhile Char.isWhitespace).reverse.dropWhile
        Char.isWhitespace)).reverse)

/-- The index of the last `.` of `cs`, if any. -/
def lastDotIdx (cs : List Char) : Option Nat :=
  ((List.range cs.length).filter (fun i => cs.getD i ' ' == '.')).getLast?

/-- `pathlib.Path(p).stem`: the final path component without its extension;
the extension is dropped only when its dot is neither the first nor the last
character of the component. -/
def pyStem (p : String) : String :=
  let cs := (basename p).toList
  match lastDotIdx cs with
  | none => String.mk cs
  | some i =>
    if 0 < i ∧ i < cs.length - 1 then String.mk (cs.take i) else String.mk cs

/-!
## `extract_tdb_metrics.py` — filename parser
-/

/-- The quadruple returned by `parse_filename` (a Python 4-tuple, each
component independently `None`-able). -/
structure ParseResult where
  tier : Option String
  config_id : Option Int
  sim_id : Option String
  channel : Option Int
deriving DecidableEq, Repr

/-- `core = base[len("DRAMSys_"):-len(".tdb")]`: the basename stripped of
the fixed prefix and extension. -/
def coreOf (path : String) : String :=
  let coreCs := (basename path).toList.drop 8
  String.mk (coreCs.take (coreCs.length - 4))

/-- `parts = core.split("_")`: the underscore-delimited tokens of the core. -/
def coreParts (path : String) : List String :=
  pySplit '_' (coreOf path)

/-- `parse_filename(path)`: strip the `DRAMSys_` prefix and `.tdb` suffix of
the basename (wrong prefix/suffix, or fewer than 3 `_`-separated tokens, give
four `None`s); tier is the first two tokens joined by `_`; the configuration
id comes from the **first** token starting with `id` (the loop `break`s there
whether or not the remainder parses as an integer); `sim_id` is the whole
core; the channel comes from the last token when it starts with `ch`. -/
def parse_filename (path : String) : ParseResult :=
  let base := basename path
  if ¬ (strStartsWith base "DRAMSys_" && strEndsWith base ".tdb") then
    ⟨none, none, none, none⟩
  else
    let core := coreOf path
    let parts := coreParts path
    if parts.length < 3 then ⟨none, none, none, none⟩
    else
      let tier := parts.getD 0 "" ++ "_" ++ parts.getD 1 ""
      let config_id :=
        match List.find? (fun p => strStartsWith p "id") parts with
        | none => none
        | some p => pyIntOfStr (String.mk (p.toList.drop 2))
      let channel :=
        let last := parts.getLastD ""
        if strStartsWith last "ch" then pyIntOfStr (String.mk (last.toList.drop 2))
        else none
      ⟨some tier, config_id, some core, channel⟩

/-!
## `extract_tdb_metrics.py` — main loop

One input file as the script sees it: its path, its size on disk, and the
result of `sqlite3.connect` (`none` when opening raises `sqlite3.Error`).
-/

structure TdbFile where
  path : String
  size : Nat
  conn : Option Db
deriving DecidableEq

/-- One 12-column CSV row of `metrics_summary_v2.csv` (after the header). -/
structure TdbOutRow where
  tier : Option String
  config_id : Option Int
  sim_id : Option String
  tdb_path : String
  channel : Option Int
  avg_bw : SqlVal
  max_bw : SqlVal
  avg_power : SqlVal
  max_power : SqlVal
  avg_buf : SqlVal
  max_buf : SqlVal
  total_txn : Option SqlVal

/-- The body of the `for path in tdb_files` loop: skip zero-byte files,
files whose name does not parse (`tier is None`), and files that fail to
open; otherwise emit exactly one row. -/
def processTdbFile (f : TdbFile) : Option TdbOutRow :=
  if f.size = 0 then none
  else
    let r := parse_filename f.path
    if r.tier = none then none
    else
      match f.conn with
      | none => none
      | some db =>
        let bw := get_numeric_agg db "Bandwidth"
        let pw := get_numeric_agg db "Power"
        let bd := get_numeric_agg db "BufferDepth"
        let total_txn := get_transaction_count db
        some ⟨r.tier, r.config_id, r.sim_id, f.path, r.channel,
              bw.1, bw.2, pw.1, pw.2, bd.1, bd.2, total_txn⟩

/-- The rows written by `main()` of `extract_tdb_metrics.py`, in order, for
a given (already sorted) list of matched files. -/
def tdbMain (files : List TdbFile) : List TdbOutRow :=
  files.filterMap processTdbFile

/-!
## `extractor.py` — manifest-based extractor
-/

/-- `safe_single_value(cur, query)`: the query's structural failure
propagates (the function does not catch); a fetched `NULL` (or, in general,
a missing row) becomes Python `None`. -/
def safe_single_value (r : Except Unit SqlVal) : Except Unit (Option SqlVal) :=
  match r with
  | .error e => .error e
  | .ok v => .ok (if v = .null then none else some v)

/-- SQL `LIKE 'pat%'` on a value: case-insensitive prefix match on text
(`NULL` and non-text values do not match). -/
def likePrefix (pat : String) (v : SqlVal) : Bool :=
  match v with
  | .text s => pat.toList.map Char.toUpper |>.isPrefixOf (s.toList.map Char.toUpper)
  | _ => false

/-- SQL `IN (s₁, s₂, …)` on a value: exact (case-sensitive) membership for
text values. -/
def inSet (set : List String) (v : SqlVal) : Bool :=
  match v with
  | .text s => set.contains s
  | _ => false

/-- The first attempt of the read/write split: `COUNT(*)` of `Transactions`
rows whose `Command` matches `LIKE 'READ%'` resp. `LIKE 'WRITE%'`. -/
def rwPrefixAttempt (db : Db) : Except Unit (Option SqlVal × Option SqlVal) := do
  let reads ← safe_single_value
    (qCountWhere db "Transactions" "Command" (likePrefix "READ"))
  let writes ← safe_single_value
    (qCountWhere db "Transactions" "Command" (likePrefix "WRITE"))
  pure (reads, writes)

/-- The fallback of the read/write split: exact membership in `('R','READ')`
resp. `('W','WRITE')`. -/
def rwExactAttempt (db : Db) : Except Unit (Option SqlVal × Option SqlVal) := do
  let reads ← safe_single_value
    (qCountWhere db "Transactions" "Command" (inSet ["R", "READ"]))
  let writes ← safe_single_value
    (qCountWhere db "Transactions" "Command" (inSet ["W", "WRITE"]))
  pure (reads, writes)

/-- The `try/except sqlite3.OperationalError` around the read/write split:
the prefix attempt's result is kept when it succeeds (even if both counts are
zero); only a structural failure switches to the exact-match fallback, whose
own failures propagate. -/
def rwSplit (db : Db) : Except Unit (Option SqlVal × Option SqlVal) :=
  match rwPrefixAttempt db with
  | .ok rw => .ok rw
  | .error _ => rwExactAttempt db

/-- The dict returned by `extract_metrics_from_db` (the fixed metric keys
plus the `GI_*` keys present in `GeneralInfo`). -/
structure Metrics where
  avg_bw : Option SqlVal
  max_bw : Option SqlVal
  sim_time : Option SqlVal
  avg_power : Option SqlVal
  max_power : Option SqlVal
  avg_buf_depth : Option SqlVal
  max_buf_depth : Option SqlVal
  total_transactions : Option SqlVal
  read_transactions : Option SqlVal
  write_transactions : Option SqlVal
  gi : List (String × SqlVal)
deriving DecidableEq, Repr

/-- `extract_metrics_from_db(db_path)`: the named-column aggregates, the
read/write split with fallback, and the `GeneralInfo` projection.  Only the
read/write split is guarded by a `try/except`; every other structural query
failure — in particular a missing `Bandwidth`, `Power`, `BufferDepth`,
`Transactions` or `GeneralInfo` table — propagates out (`Except.error`),
mirroring the uncaught `sqlite3.OperationalError`. -/
def extract_metrics_from_db (db : Db) : Except Unit Metrics := do
  let avg_bw ← safe_single_value (qAvg db "Bandwidth" "AverageBandwidth")
  let max_bw ← safe_single_value (qMaxCol db "Bandwidth" "AverageBandwidth")
  let sim_time ← safe_single_value (qMaxCol db "Bandwidth" "Time")
  let avg_power ← safe_single_value (qAvg db "Power" "AveragePower")
  let max_power ← safe_single_value (qMaxCol db "Power" "AveragePower")
  let avg_buf ← safe_single_value (qAvg db "BufferDepth" "AverageBufferDepth")
  let max_buf ← safe_single_value (qMaxCol db "BufferDepth" "AverageBufferDepth")
  let total_tx ← safe_single_value (qCount db "Transactions")
  let rw ← rwSplit db
  let gi_row ← qSelectStarFirst db "GeneralInfo"
  let general_info : List (String × SqlVal) :=
    match gi_row with
    | none => []
    | some r => (tableCols db "GeneralInfo").zip r
  let giFields := ["clk", "UnitOfTime", "MCconfig", "Memspec", "Traces"].filterMap
    (fun k => (List.find? (fun p => p.1 == k) general_info).map
      (fun p => ("GI_" ++ k, p.2)))
  pure ⟨avg_bw, max_bw, sim_time, avg_power, max_power, avg_buf, max_buf,
        total_tx, rw.1, rw.2, giFields⟩

/-- One row of a `*_runs_manifest.csv`, accessed by header name. -/
structure ManifestRow where
  tier : String
  config_id : String
  trace_name : String
  simconfig : String

/-- `sim_id = f"{tier}_id{config_id}_{trace_stem}"`. -/
def mkSimId (row : ManifestRow) : String :=
  row.tier ++ "_id" ++ row.config_id ++ "_" ++ pyStem row.trace_name

/-- `db_name = f"DRAMSys_{sim_id}_{simconfig_stub}_ch{ch}.tdb"`. -/
def dbFileName (row : ManifestRow) (ch : Nat) : String :=
  "DRAMSys_" ++ mkSimId row ++ "_" ++ pyStem row.simconfig ++ "_ch"
    ++ toString ch ++ ".tdb"

/-- One row of `metrics_summary.csv`: the six identifying fields plus the
metric dict. -/
structure SummaryRow where
  tier : String
  config_id : String
  sim_id : String
  trace_name : String
  simconfig : String
  channel : Nat
  metrics : Metrics
deriving DecidableEq, Repr

/-- The `out_row` written for one (manifest row, channel) unit. -/
def mkSummaryRow (row : ManifestRow) (ch : Nat) (m : Metrics) : SummaryRow :=
  ⟨row.tier, row.config_id, mkSimId row, row.trace_name, row.simconfig, ch, m⟩

/-- `range(4)`: the fixed channel range of the manifest extractor. -/
def channelRange : List Nat := [0, 1, 2, 3]

/-- The `for ch in range(4)` loop for one manifest row over a filesystem
`fs` (mapping a file name to the database it holds, `none` when the file
does not exist).  Missing files are silently skipped; an extraction error
stops the loop — and the whole script — on the spot.  Returns the rows
written before the stop and whether the loop completed. -/
def processChannels (fs : String → Option Db) (row : ManifestRow) :
    List Nat → List SummaryRow × Bool
  | [] => ([], true)
  | ch :: rest =>
    match fs (dbFileName row ch) with
    | none => processChannels fs row rest
    | some db =>
      match extract_metrics_from_db db with
      | .error _ => ([], false)
      | .ok m =>
        let (rs, ok) := processChannels fs row rest
        (mkSummaryRow row ch m :: rs, ok)

/-- The loop over all manifest rows: a unit that crashes ends the batch,
leaving the rows already written and dropping every remaining unit. -/
def processRows (fs : String → Option Db) :
    List ManifestRow → List SummaryRow × Bool
  | [] => ([], true)
  | r :: rest =>
    let (rs, ok) := processChannels fs r channelRange
    if ok then
      let (rs2, ok2) := processRows fs rest
      (rs ++ rs2, ok2)
    else (rs, false)

/-- The observable outcome of `main()` of `extractor.py` on the output CSV:
either the upfront `SystemExit` fires because no manifest was found (the
output file is never opened, hence neither created nor truncated), or the
output file is opened, the header and `written` rows are emitted, and
`completed` records whether the batch ran to the end. -/
inductive MainResult where
  | fatalNoManifests
  | run (written : List SummaryRow) (completed : Bool)
deriving DecidableEq, Repr

/-- `main()` of `extractor.py`, over the manifest files found (each a list
of rows) and the filesystem `fs`. -/
def extractorMain (fs : String → Option Db)
    (manifests : List (List ManifestRow)) : MainResult :=
  if manifests.isEmpty then .fatalNoManifests
  else
    let (rows, ok) := processRows fs manifests.flatten
    .run rows ok

/-!
## `summarize_invalid_reasons.py`
-/

/-- `(row.get("invalid_reasons") or "").strip()`, with the empty result
replaced by the sentinel label. -/
def normalizeReason (cell : Option String) : String :=
  let r := pyStrip (cell.getD "")
  if r = "" then "<EMPTY_REASON_FIELD>" else r

/-- `counts[reason] += 1` on an insertion-ordered association list (the
model of a `collections.Counter`, which preserves first-insertion order). -/
def tallyInsert (acc : List (String × Nat)) (r : String) : List (String × Nat) :=
  match acc with
  | [] => [(r, 1)]
  | (k, n) :: rest =>
    if k = r then (k, n + 1) :: rest else (k, n) :: tallyInsert rest r

/-- The accumulation loop over the CSV's `invalid_reasons` cells. -/
def tallyCounts (cells : List (Option String)) : List (String × Nat) :=
  cells.foldl (fun acc cell => tallyInsert acc (normalizeReason cell)) []

/-- `Counter.most_common()`: the entries sorted by count descending;
CPython implements it with the stable `sorted(..., reverse=True)`, so ties
keep first-seen order — modelled by the (stable) insertion sort on the
relation "left count at least right count". -/
def most_common (c : List (String × Nat)) : List (String × Nat) :=
  List.insertionSort (fun a b => b.2 ≤ a.2) c

/-- `f"{n:5d}"`: decimal, right-aligned to width 5. -/
def padNum5 (n : Nat) : String :=
  let s := toString n
  String.mk (List.replicate (5 - s.length) ' ') ++ s

/-- One report line `f"{n:5d}  {reason}"`. -/
def formatLine (p : String × Nat) : String :=
  padNum5 p.2 ++ "  " ++ p.1

/-- The separator line `"-" * 60`. -/
def sepLine : String :=
  String.mk (List.replicate 60 '-')

/-- The full report: one line per distinct reason (most common first), the
separator, and the total. -/
def summaryLines (cells : List (Option String)) : List String :=
  let counts := tallyCounts cells
  let total := (counts.map (·.2)).sum
  (most_common counts).map formatLine
    ++ [sepLine, "Total invalid configs counted: " ++ toString total]

/-- The count recorded for `s` (0 when `s` was never seen). -/
def lookupCount (c : List (String × Nat)) (s : String) : Nat :=
  ((List.find? (fun p => p.1 == s) c).map (·.2)).getD 0

/-!
## Spec-side predicates and concrete witnesses
-/

/-- The values of the **last** declared column of a table (the column
`get_numeric_agg` aggregates). -/
def lastColVals (tb : Table) : List SqlVal :=
  (colValues tb (tb.cols.getLastD "")).getD []

/-- Follows the claim's wording for a well-formed `.tdb` filename: correct
`DRAMSys_` prefix, `.tdb` extension, a tier token pair (at least three
tokens), some token starting with `id` immediately followed by a
non-negative integer, and a trailing `chN` token. -/
def wellFormedTdbName (path : String) : Bool :=
  let base := basename path
  let parts := coreParts path
  strStartsWith base "DRAMSys_" && strEndsWith base ".tdb"
    && decide (3 ≤ parts.length)
    && parts.any (fun p =>
        strStartsWith p "id"
          && match pyIntOfStr (String.mk (p.toList.drop 2)) with
             | some k => decide (0 ≤ k)
             | none => false)
    && (let last := parts.getLastD ""
        strStartsWith last "ch"
          && (pyIntOfStr (String.mk (last.toList.drop 2))).isSome)

/-- Follows the claim's wording for an explicitly skipped input of the
glob-based extractor: a zero-byte file, an unparsable filename, or a file
that cannot be opened. -/
def skippedTdb (f : TdbFile) : Prop :=
  f.size = 0 ∨ (parse_filename f.path).tier = none ∨ f.conn = none

instance (f : TdbFile) : Decidable (skippedTdb f) := by
  unfold skippedTdb; infer_instance

/-- A structural failure of the read/write prefix query: the `Transactions`
table is missing, or it has no `Command` column. -/
def rwStructuralFailure (db : Db) : Prop :=
  lookupTable db "Transactions" = none ∨
    ∃ tb, lookupTable db "Transactions" = some tb ∧ "Command" ∉ tb.cols

/-- A small healthy database holding every table the manifest-based
extractor queries. -/
def healthyDb : Db :=
  [("Bandwidth", ⟨["Time", "AverageBandwidth"], [[.num 1, .num 10]]⟩),
   ("Power", ⟨["Time", "AveragePower"], [[.num 1, .num 2]]⟩),
   ("BufferDepth", ⟨["Time", "AverageBufferDepth"], [[.num 1, .num 3]]⟩),
   ("Transactions", ⟨["ID", "Command"],
      [[.num 0, .text "READ"], [.num 1, .text "WRITE"]]⟩),
   ("GeneralInfo", ⟨["clk", "Memspec"], [[.num 5, .text "ddr4"]]⟩)]

/-- The metrics `extract_metrics_from_db` reads out of `healthyDb`. -/
def healthyMetrics : Metrics :=
  ⟨some (.num 10), some (.num 10), some (.num 1), some (.num 2),
   some (.num 2), some (.num 3), some (.num 3), some (.num 2),
   some (.num 1), some (.num 1),
   [("GI_clk", .num 5), ("GI_Memspec", .text "ddr4")]⟩

/-- The manifest row of the spec's channel-reconstruction example. -/
def exampleRow : ManifestRow :=
  ⟨"lpddr4", "4386", "ai_cpu_trace_example.trace", "ddr4.json"⟩

/-- A second manifest row, used to exhibit the batch abort. -/
def exampleRowB : ManifestRow :=
  ⟨"ddr4", "7", "other_trace.trace", "ddr4.json"⟩

/-- A filesystem on which only channel 0 of `exampleRow` exists. -/
def exampleFs : String → Option Db := fun s =>
  if s = "DRAMSys_lpddr4_id4386_ai_cpu_trace_example_ddr4_ch0.tdb" then
    some healthyDb
  else none

/-- A database with all five tables present, their queried columns declared,
and zero rows everywhere. -/
def emptyTablesDb : Db :=
  [("Bandwidth", ⟨["Time", "AverageBandwidth"], []⟩),
   ("Power", ⟨["Time", "AveragePower"], []⟩),
   ("BufferDepth", ⟨["Time", "AverageBufferDepth"], []⟩),
   ("Transactions", ⟨["ID", "Command"], []⟩),
   ("GeneralInfo", ⟨["clk", "Memspec"], []⟩)]

/-- A parseable, non-empty, openable input file for the glob extractor. -/
def exampleTdbFile : TdbFile :=
  ⟨"/home/arifh/DRAMSys/DRAMSys_tier_lpddr4_id4386_ai_cpu_trace_example_ch0.tdb",
   4096, some healthyDb⟩

/-- A glob batch: the good file above plus a zero-byte file that is skipped. -/
def exampleTdbFiles : List TdbFile :=
  [exampleTdbFile,
   ⟨"/home/arifh/DRAMSys/DRAMSys_tier_lpddr4_id4386_ai_cpu_trace_example_ch1.tdb",
    0, none⟩]

/-- A filesystem holding a broken (table-less) database for `exampleRow`'s
channel 0 and a healthy one for `exampleRowB`'s channel 0. -/
def abortFs : String → Option Db := fun s =>
  if s = "DRAMSys_lpddr4_id4386_ai_cpu_trace_example_ddr4_ch0.tdb" then
    some emptyDb
  else if s = "DRAMSys_ddr4_id7_other_trace_ddr4_ch0.tdb" then
    some healthyDb
  else none

/-!
# Theorems

## Shared helper lemmas
-/

theorem ratAdd_eq_add (a b : ℚ) : ratAdd a b = a + b := by
  have za : (a.den : ℤ) ≠ 0 := Int.natCast_ne_zero.mpr a.den_nz
  have zb : (b.den : ℤ) ≠ 0 := Int.natCast_ne_zero.mpr b.den_nz
  rw [ratAdd, ← Rat.divInt_add_divInt a.num b.num za zb,
    Rat.divInt_self, Rat.divInt_self]

theorem ratDiv_eq_div (a b : ℚ) : ratDiv a b = a / b :=
  (Rat.div_def' a b).symm

theorem ratSum_eq_sum (l : List ℚ) : ratSum l = l.sum := by
  induction l with
  | nil => rfl
  | cons x xs ih =>
    rw [ratSum, List.foldr_cons, ← ratSum, ratAdd_eq_add, ih, List.sum_cons]

/-- The model's average is the usual mean of the coerced values. -/
theorem sqlAvg_eq_mean (vs : List SqlVal)
    (h : (vs.filterMap toReal).isEmpty = false) :
    sqlAvg vs
      = .num ((vs.filterMap toReal).sum / ((vs.filterMap toReal).length : ℚ)) := by
  simp only [sqlAvg, h, Bool.false_eq_true, if_false]
  congr 1
  rw [ratSum_eq_sum]
  rw [show (((vs.filterMap toReal).sum.den * (vs.filterMap toReal).length : Nat) : ℤ)
      = ((vs.filterMap toReal).sum.den : ℤ) * ((vs.filterMap toReal).length : ℤ)
    from by push_cast; ring]
  rw [Rat.divInt_eq_div]
  push_cast
  rw [div_mul_eq_div_div, Rat.num_div_den]

theorem sqlAvg_single (v : ℚ) : sqlAvg [.num v] = .num v := by
  have hns : [SqlVal.num v].filterMap toReal = [v] := rfl
  have hrs : ratSum [v] = v := by rw [ratSum_eq_sum]; simp
  simp only [sqlAvg, hns, hrs]
  rw [if_neg (by simp)]
  have hden : ((v.den * ([v] : List ℚ).length : Nat) : ℤ) = (v.den : ℤ) := by
    norm_num
  rw [hden]
  exact congrArg SqlVal.num (Rat.divInt_self v)

theorem sqlMax_single (v : ℚ) : sqlMax [.num v] = .num v := rfl

theorem sqlAvg_nil : sqlAvg [] = .null := rfl

theorem sqlMax_nil : sqlMax [] = .null := rfl

theorem colValues_isSome_of_mem (tb : Table) (c : String) (h : c ∈ tb.cols) :
    ∃ vs, colValues tb c = some vs := by
  unfold colValues
  cases hfi : tb.cols.findIdx? (· == c) with
  | some i => exact ⟨_, rfl⟩
  | none =>
    rw [List.findIdx?_eq_none_iff] at hfi
    have := hfi c h
    simp at this

theorem exists_getLast?_of_ne_nil {α : Type} {l : List α} (h : l ≠ []) :
    ∃ x, l.getLast? = some x := by
  cases hg : l.getLast? with
  | none => rw [List.getLast?_eq_none_iff] at hg; exact absurd hg h
  | some x => exact ⟨x, rfl⟩

/-!
## C3, C4, C10 — the generic aggregate reader
-/

/-- C3: for every database and table name, `get_numeric_agg` returns
`(NULL, NULL)` when the table does not exist or has no declared columns;
being a total function of the model, it never raises. -/
theorem get_numeric_agg_missing (db : Db) (t : String)
    (h : lookupTable db t = none ∨ tableCols db t = []) :
    get_numeric_agg db t = (.null, .null) := by
  have hc : tableCols db t = [] := by
    rcases h with h | h
    · simp [tableCols, h]
    · exact h
  simp [get_numeric_agg, hc]

/-- Witness for C3 at a database with no tables. -/
theorem get_numeric_agg_missing_witness :
    (lookupTable emptyDb "Bandwidth" = none ∨
      tableCols emptyDb "Bandwidth" = []) ∧
    get_numeric_agg emptyDb "Bandwidth" = (.null, .null) :=
  ⟨Or.inl rfl, get_numeric_agg_missing emptyDb "Bandwidth" (Or.inl rfl)⟩

/-- C4: for every existing table with at least one declared column,
`get_numeric_agg` aggregates the **last** declared column, returning its SQL
average and maximum over all rows; for a one-row, one-numeric-column table
both results are that single value. -/
theorem get_numeric_agg_last_column (db : Db) (t : String) (tb : Table)
    (hlk : lookupTable db t = some tb) (hne : tb.cols ≠ []) :
    get_numeric_agg db t = (sqlAvg (lastColVals tb), sqlMax (lastColVals tb))
      ∧ ∀ c v, tb.cols = [c] → tb.rows = [[.num v]] →
          get_numeric_agg db t = (.num v, .num v) := by
  have hc : tableCols db t = tb.cols := by simp [tableCols, hlk]
  obtain ⟨c0, hlast⟩ := exists_getLast?_of_ne_nil hne
  have hD : tb.cols.getLastD "" = c0 := by
    rw [List.getLastD_eq_getLast?, hlast]; rfl
  have hmem : c0 ∈ tb.cols := by
    rcases List.getLast?_eq_some_iff.mp hlast with ⟨l', hl'⟩
    rw [hl']; simp
  obtain ⟨vs, hvs⟩ := colValues_isSome_of_mem tb c0 hmem
  have hlcv : lastColVals tb = vs := by
    unfold lastColVals; rw [hD, hvs]; rfl
  have hAvg : qAvg db t c0 = .ok (sqlAvg vs) := by
    simp only [qAvg, hlk, hvs]
  have hMax : qMaxCol db t c0 = .ok (sqlMax vs) := by
    simp only [qMaxCol, hlk, hvs]
  have hmain : get_numeric_agg db t = (sqlAvg vs, sqlMax vs) := by
    simp only [get_numeric_agg, hc, hlast, hAvg, hMax]
  refine ⟨by rw [hmain, hlcv], fun c v hcols hrows => ?_⟩
  have hvals : vs = [.num v] := by
    unfold colValues at hvs
    rw [hcols, hrows] at hvs
    have hc0 : c0 = c := by
      rw [hcols] at hD
      exact hD.symm.trans rfl
    subst hc0
    simp at hvs
    exact hvs.symm
  rw [hmain, hvals, sqlAvg_single, sqlMax_single]

/-- Witness for C4 at a one-row, one-column table. -/
theorem get_numeric_agg_last_column_witness :
    get_numeric_agg [("T", ⟨["Val"], [[.num 7]]⟩)] "T" = (.num 7, .num 7) :=
  (get_numeric_agg_last_column [("T", ⟨["Val"], [[.num 7]]⟩)] "T"
      ⟨["Val"], [[.num 7]]⟩ rfl (by simp)).2 "Val" 7 rfl rfl

/-- C10: for an existing table with at least one declared column but zero
rows, `get_numeric_agg` returns `(NULL, NULL)` — `AVG`/`MAX` over an empty
table yield SQL `NULL`, passed through unchanged — making the empty table
indistinguishable, at this interface, from a missing one. -/
theorem get_numeric_agg_empty_table (db : Db) (t : String) (tb : Table)
    (hlk : lookupTable db t = some tb) (hne : tb.cols ≠ [])
    (hrows : tb.rows = []) :
    get_numeric_agg db t = (.null, .null)
      ∧ get_numeric_agg db t = get_numeric_agg emptyDb t := by
  have hvals : lastColVals tb = [] := by
    unfold lastColVals colValues
    rw [hrows]
    cases tb.cols.findIdx? (· == tb.cols.getLastD "") <;> rfl
  have h := (get_numeric_agg_last_column db t tb hlk hne).1
  rw [hvals, sqlAvg_nil, sqlMax_nil] at h
  exact ⟨h, by rw [h]; rfl⟩

/-- Witness for C10 at a concrete empty one-column table. -/
theorem get_numeric_agg_empty_table_witness :
    get_numeric_agg [("T", ⟨["Val"], []⟩)] "T" = (.null, .null) :=
  (get_numeric_agg_empty_table [("T", ⟨["Val"], []⟩)] "T" ⟨["Val"], []⟩
    rfl (by simp) rfl).1

/-!
## C5 — the filename parser
-/

/-- C5 fails as stated: this filename satisfies every condition of the
claim's well-formedness (prefix, extension, tier pair, the token `id5`
which is `id` followed by a non-negative integer, trailing `ch0`), yet the
parser returns a `None` configuration id, because its scan `break`s at the
earlier token `ida`. -/
theorem parse_filename_first_id_counterexample :
    wellFormedTdbName "DRAMSys_tier_x_ida_id5_ch0.tdb" = true
      ∧ (parse_filename "DRAMSys_tier_x_ida_id5_ch0.tdb").config_id = none := by
  decide

/-- C5 (amended): for every well-formed filename the parser returns a
non-null tier, simulation id and channel; the configuration id is taken
from the **first** token starting with `id` — the scan stops there whether
or not its remainder parses — so it is non-null exactly when that first
`id` token is immediately followed by an integer. -/
theorem parse_filename_wellformed (path : String)
    (h : wellFormedTdbName path = true) :
    ((parse_filename path).tier).isSome = true
      ∧ ((parse_filename path).sim_id).isSome = true
      ∧ ((parse_filename path).channel).isSome = true
      ∧ ∀ p, List.find? (fun q => strStartsWith q "id") (coreParts path) = some p →
          (parse_filename path).config_id
            = pyIntOfStr (String.mk (p.toList.drop 2)) := by
  unfold wellFormedTdbName at h
  simp only [Bool.and_eq_true, decide_eq_true_eq] at h
  obtain ⟨⟨⟨⟨h1, h2⟩, h3⟩, _h4⟩, h5, h6⟩ := h
  have hn3 : ¬ ((coreParts path).length < 3) := Nat.not_lt.mpr h3
  simp only [parse_filename, h1, h2, h5, Bool.and_self, not_true, if_false,
    hn3, if_true, if_neg hn3]
  refine ⟨rfl, rfl, h6, fun p hp => ?_⟩
  rw [hp]

/-- Witness for C5 (amended) at the spec's example filename. -/
theorem parse_filename_wellformed_witness :
    ((parse_filename "DRAMSys_tier_lpddr4_id4386_ai_cpu_trace_example_ch0.tdb").tier).isSome = true
      ∧ ((parse_filename "DRAMSys_tier_lpddr4_id4386_ai_cpu_trace_example_ch0.tdb").sim_id).isSome = true
      ∧ ((parse_filename "DRAMSys_tier_lpddr4_id4386_ai_cpu_trace_example_ch0.tdb").channel).isSome = true
      ∧ ∀ p, List.find? (fun q => strStartsWith q "id")
            (coreParts "DRAMSys_tier_lpddr4_id4386_ai_cpu_trace_example_ch0.tdb") = some p →
          (parse_filename "DRAMSys_tier_lpddr4_id4386_ai_cpu_trace_example_ch0.tdb").config_id
            = pyIntOfStr (String.mk (p.toList.drop 2)) :=
  parse_filename_wellformed
    "DRAMSys_tier_lpddr4_id4386_ai_cpu_trace_example_ch0.tdb" (by decide)

/-!
## C2 — the glob extractor emits exactly one row per non-skipped file
-/

theorem processTdbFile_eq_none_iff (f : TdbFile) :
    processTdbFile f = none ↔ skippedTdb f := by
  unfold processTdbFile skippedTdb
  by_cases h1 : f.size = 0
  · simp [h1]
  · simp only [h1, if_false, false_or]
    by_cases h2 : (parse_filename f.path).tier = none
    · simp [h2]
    · simp only [h2, if_false, false_or]
      cases hc : f.conn <;> simp

theorem processTdbFile_path (f : TdbFile) (r : TdbOutRow)
    (h : processTdbFile f = some r) : r.tdb_path = f.path := by
  unfold processTdbFile at h
  by_cases h1 : f.size = 0
  · simp [h1] at h
  · simp only [h1, if_false] at h
    by_cases h2 : (parse_filename f.path).tier = none
    · simp [h2] at h
    · simp only [h2, if_false] at h
      cases hc : f.conn with
      | none => rw [hc] at h; cases h
      | some db =>
        rw [hc] at h
        cases h
        rfl

theorem mem_tdbMain_path (files : List TdbFile) (r : TdbOutRow)
    (h : r ∈ tdbMain files) : r.tdb_path ∈ files.map (·.path) := by
  unfold tdbMain at h
  rcases List.mem_filterMap.mp h with ⟨f, hf, hpf⟩
  exact List.mem_map.mpr ⟨f, hf, (processTdbFile_path f r hpf).symm⟩

/-- C2: for every list of matched files with distinct paths and every file
in it, the output holds **exactly one** row carrying that file's path —
unless the file is explicitly skipped (zero bytes, unparsable filename, or
unopenable), in which case it holds none. -/
theorem tdbMain_exactly_once (files : List TdbFile) (f : TdbFile)
    (hnd : (files.map (·.path)).Nodup) (hmem : f ∈ files) :
    ((tdbMain files).filter (fun r => r.tdb_path == f.path)).length
      = if skippedTdb f then 0 else 1 := by
  induction files with
  | nil => cases hmem
  | cons g gs ih =>
    rw [List.map_cons, List.nodup_cons] at hnd
    obtain ⟨hg, hnd2⟩ := hnd
    rcases List.mem_cons.mp hmem with rfl | hmem2
    · have hrest : ((tdbMain gs).filter (fun r => r.tdb_path == f.path)).length = 0 := by
        rw [List.length_eq_zero, List.filter_eq_nil_iff]
        intro r hr
        have hpath := mem_tdbMain_path gs r hr
        simp only [beq_iff_eq]
        intro heq
        rw [heq] at hpath
        exact hg hpath
      unfold tdbMain
      rw [List.filterMap_cons]
      cases hpf : processTdbFile f with
      | none =>
        rw [if_pos ((processTdbFile_eq_none_iff f).mp hpf)]
        exact hrest
      | some r =>
        have hskip : ¬ skippedTdb f := fun hs =>
          by rw [(processTdbFile_eq_none_iff f).mpr hs] at hpf; cases hpf
        rw [if_neg hskip, List.filter_cons,
          if_pos (by rw [processTdbFile_path f r hpf]; exact beq_self_eq_true _)]
        rw [List.length_cons]
        unfold tdbMain at hrest
        rw [hrest]
    · have hih := ih hnd2 hmem2
      unfold tdbMain at hih ⊢
      rw [List.filterMap_cons]
      cases hpg : processTdbFile g with
      | none => exact hih
      | some r =>
        rw [List.filter_cons, if_neg ?_]
        · exact hih
        · simp only [beq_iff_eq]
          rw [processTdbFile_path g r hpg]
          intro heq
          exact hg (heq ▸ List.mem_map.mpr ⟨f, hmem2, rfl⟩)

/-!
## C1 — missing tables make the manifest extractor raise, aborting the batch
-/

theorem colValues_empty_rows (tb : Table) (c : String)
    (hr : tb.rows = []) (hc : c ∈ tb.cols) : colValues tb c = some [] := by
  unfold colValues
  cases hfi : tb.cols.findIdx? (· == c) with
  | some i => rw [hr]; rfl
  | none =>
    exfalso
    rw [List.findIdx?_eq_none_iff] at hfi
    have := hfi c hc
    simp at this

/-- C1 fails as stated: on a database with **all** five tables absent,
`extract_metrics_from_db` raises (`Except.error`) instead of returning a
record of nulls; and in a batch whose first (manifest row, channel) unit
holds such a database, the crash aborts the batch — the second unit, whose
healthy database would have produced a row, produces none. -/
theorem extract_metrics_missing_tables_counterexample :
    extract_metrics_from_db emptyDb = .error ()
      ∧ processRows abortFs [exampleRow, exampleRowB] = ([], false)
      ∧ (processChannels abortFs exampleRowB channelRange).1 ≠ [] := by
  refine ⟨by decide, by decide, by decide⟩

/-- C1 (amended): when the five tables are **present but empty** (with the
queried columns declared), `extract_metrics_from_db` does not raise and
returns the AVG/MAX-derived fields as null and the three counts as 0; but
when the `Bandwidth` table is absent the uncaught query error propagates
out, and a unit whose extraction fails ends the batch, dropping every
remaining manifest row. -/
theorem extract_metrics_empty_tables (db : Db) (tB tP tD tT tG : Table)
    (hB : lookupTable db "Bandwidth" = some tB)
    (hBc1 : "AverageBandwidth" ∈ tB.cols) (hBc2 : "Time" ∈ tB.cols)
    (hBr : tB.rows = [])
    (hP : lookupTable db "Power" = some tP)
    (hPc : "AveragePower" ∈ tP.cols) (hPr : tP.rows = [])
    (hD : lookupTable db "BufferDepth" = some tD)
    (hDc : "AverageBufferDepth" ∈ tD.cols) (hDr : tD.rows = [])
    (hT : lookupTable db "Transactions" = some tT)
    (hTc : "Command" ∈ tT.cols) (hTr : tT.rows = [])
    (hG : lookupTable db "GeneralInfo" = some tG) (hGr : tG.rows = []) :
    extract_metrics_from_db db
      = .ok ⟨none, none, none, none, none, none, none,
             some (.num 0), some (.num 0), some (.num 0), []⟩
      ∧ (∀ db2, lookupTable db2 "Bandwidth" = none →
          extract_metrics_from_db db2 = .error ())
      ∧ (∀ fs r rest, (processChannels fs r channelRange).2 = false →
          processRows fs (r :: rest)
            = ((processChannels fs r channelRange).1, false)) := by
  refine ⟨?_, ?_, ?_⟩
  · have e1 : qAvg db "Bandwidth" "AverageBandwidth" = .ok .null := by
      simp only [qAvg, hB, colValues_empty_rows tB _ hBr hBc1]; rfl
    have e2 : qMaxCol db "Bandwidth" "AverageBandwidth" = .ok .null := by
      simp only [qMaxCol, hB, colValues_empty_rows tB _ hBr hBc1]; rfl
    have e3 : qMaxCol db "Bandwidth" "Time" = .ok .null := by
      simp only [qMaxCol, hB, colValues_empty_rows tB _ hBr hBc2]; rfl
    have e4 : qAvg db "Power" "AveragePower" = .ok .null := by
      simp only [qAvg, hP, colValues_empty_rows tP _ hPr hPc]; rfl
    have e5 : qMaxCol db "Power" "AveragePower" = .ok .null := by
      simp only [qMaxCol, hP, colValues_empty_rows tP _ hPr hPc]; rfl
    have e6 : qAvg db "BufferDepth" "AverageBufferDepth" = .ok .null := by
      simp only [qAvg, hD, colValues_empty_rows tD _ hDr hDc]; rfl
    have e7 : qMaxCol db "BufferDepth" "AverageBufferDepth" = .ok .null := by
      simp only [qMaxCol, hD, colValues_empty_rows tD _ hDr hDc]; rfl
    have e8 : qCount db "Transactions" = .ok (.num 0) := by
      simp only [qCount, hT, hTr]; rfl
    have e9 : qCountWhere db "Transactions" "Command" (likePrefix "READ")
        = .ok (.num 0) := by
      simp only [qCountWhere, hT, colValues_empty_rows tT _ hTr hTc]; rfl
    have e10 : qCountWhere db "Transactions" "Command" (likePrefix "WRITE")
        = .ok (.num 0) := by
      simp only [qCountWhere, hT, colValues_empty_rows tT _ hTr hTc]; rfl
    have e11 : qSelectStarFirst db "GeneralInfo" = .ok none := by
      simp only [qSelectStarFirst, hG, hGr]; rfl
    unfold extract_metrics_from_db rwSplit rwPrefixAttempt
    rw [e1, e2, e3, e4, e5, e6, e7, e8, e9, e10, e11]
    rfl
  · intro db2 h2
    have e : qAvg db2 "Bandwidth" "AverageBandwidth" = .error () := by
      simp only [qAvg, h2]
    unfold extract_metrics_from_db
    rw [e]
    rfl
  · intro fs r rest h
    unfold processRows
    rcases hpc : processChannels fs r channelRange with ⟨rs, ok⟩
    rw [hpc] at h
    simp only at h
    simp [h]


/-- Witness for C1 (amended) at `emptyTablesDb`. -/
theorem extract_metrics_empty_tables_witness :
    extract_metrics_from_db emptyTablesDb
      = .ok ⟨none, none, none, none, none, none, none,
             some (.num 0), some (.num 0), some (.num 0), []⟩ :=
  (extract_metrics_empty_tables emptyTablesDb
    ⟨["Time", "AverageBandwidth"], []⟩ ⟨["Time", "AveragePower"], []⟩
    ⟨["Time", "AverageBufferDepth"], []⟩ ⟨["ID", "Command"], []⟩
    ⟨["clk", "Memspec"], []⟩
    rfl (by decide) (by decide) rfl rfl (by decide) rfl rfl (by decide) rfl
    rfl (by decide) rfl rfl rfl).1

/-!
## C6 — manifest-driven channel reconstruction
-/

/-- C6: for every manifest row, the expected database name is
`DRAMSys_<tier>_id<config_id>_<trace-stem>_<simconfig-stem>_ch<N>.tdb`, the
channels tried are exactly `0..3`; channels whose file does not exist are
silently skipped, and when only channel 0's database exists (and extracts
cleanly) exactly one row is emitted, with channel 0. -/
theorem manifest_channel_reconstruction (fs : String → Option Db)
    (row : ManifestRow) (db : Db) (m : Metrics)
    (h0 : fs (dbFileName row 0) = some db)
    (h123 : ∀ ch ∈ ([1, 2, 3] : List Nat), fs (dbFileName row ch) = none)
    (hm : extract_metrics_from_db db = .ok m) :
    processChannels fs row channelRange = ([mkSummaryRow row 0 m], true)
      ∧ channelRange = [0, 1, 2, 3]
      ∧ ∀ ch : Nat, dbFileName row ch
          = "DRAMSys_" ++ mkSimId row ++ "_" ++ pyStem row.simconfig
            ++ "_ch" ++ toString ch ++ ".tdb" := by
  refine ⟨?_, rfl, fun ch => rfl⟩
  have h1 := h123 1 (by simp)
  have h2 := h123 2 (by simp)
  have h3 := h123 3 (by simp)
  show processChannels fs row [0, 1, 2, 3] = _
  simp only [processChannels, h0, h1, h2, h3, hm]

/-- Witness for C6 at the spec's example manifest row, with only channel 0's
database on disk. -/
theorem manifest_channel_reconstruction_witness :
    processChannels exampleFs exampleRow channelRange
      = ([mkSummaryRow exampleRow 0 healthyMetrics], true) :=
  (manifest_channel_reconstruction exampleFs exampleRow healthyDb
    healthyMetrics (by decide) (by decide) (by decide)).1

/-!
## C9 — zero manifests abort before any output exists
-/

/-- C9: with zero manifest CSVs found the manifest extractor stops with the
upfront `SystemExit`, before the output summary CSV is opened — so the file
is neither created nor truncated; in every other case the run reaches the
point where the output file is opened. -/
theorem extractorMain_no_manifests (fs : String → Option Db)
    (manifests : List (List ManifestRow)) :
    (manifests = [] → extractorMain fs manifests = .fatalNoManifests)
      ∧ (manifests ≠ [] →
          ∃ rows ok, extractorMain fs manifests = .run rows ok) := by
  constructor
  · intro h; subst h; rfl
  · intro h
    cases manifests with
    | nil => exact absurd rfl h
    | cons a as =>
      rcases hp : processRows fs ((a :: as).flatten) with ⟨rows, ok⟩
      refine ⟨rows, ok, ?_⟩
      unfold extractorMain
      rw [if_neg (by simp)]
      rw [hp]

/-- Witness for C9 with an empty manifest list. -/
theorem extractorMain_no_manifests_witness :
    extractorMain (fun _ => none) [] = .fatalNoManifests :=
  (extractorMain_no_manifests (fun _ => none) []).1 rfl

/-!
## C8 — the read/write split's two-attempt strategy
-/

theorem mem_of_findIdx?_eq_some {l : List String} {c : String} {i : Nat}
    (h : l.findIdx? (· == c) = some i) : c ∈ l := by
  by_contra hnm
  rw [show l.findIdx? (· == c) = none from List.findIdx?_eq_none_iff.mpr ?_] at h
  · cases h
  · intro a ha
    simp only [beq_eq_false_iff_ne]
    exact fun heq => hnm (heq ▸ ha)

theorem qCountWhere_error_iff (db : Db) (tbl col : String)
    (pred : SqlVal → Bool) :
    (∃ e, qCountWhere db tbl col pred = .error e)
      ↔ (lookupTable db tbl = none
          ∨ ∃ tb, lookupTable db tbl = some tb ∧ col ∉ tb.cols) := by
  unfold qCountWhere
  cases hlk : lookupTable db tbl with
  | none => simp
  | some tb =>
    cases hcv : colValues tb col with
    | none =>
      have hnm : col ∉ tb.cols := by
        intro hmem
        unfold colValues at hcv
        rcases Option.map_eq_none'.mp hcv with hfi
        rw [List.findIdx?_eq_none_iff] at hfi
        have := hfi col hmem
        simp at this
      simp [hcv, hnm]
    | some vs =>
      have hm : col ∈ tb.cols := by
        unfold colValues at hcv
        rcases Option.map_eq_some'.mp hcv with ⟨i, hfi, _⟩
        exact mem_of_findIdx?_eq_some hfi
      simp [hcv, hm]

/-- C8: the prefix-match (`LIKE 'READ%'`/`'WRITE%'`) attempt runs first and
its successful result — including a valid all-zero count — is kept; the
exact-match fallback is consulted **exactly** when the prefix attempt fails
structurally (missing `Transactions` table or `Command` column); when the
table and column are present the prefix attempt always succeeds with
non-null counts; and any single aggregate yielding a null value is recorded
as null rather than failing the record. -/
theorem rw_split_two_attempts (db : Db) :
    (∀ rw, rwPrefixAttempt db = .ok rw → rwSplit db = .ok rw)
      ∧ (∀ e, rwPrefixAttempt db = .error e → rwSplit db = rwExactAttempt db)
      ∧ ((∃ e, rwPrefixAttempt db = .error e) ↔ rwStructuralFailure db)
      ∧ (∀ tb, lookupTable db "Transactions" = some tb → "Command" ∈ tb.cols →
          (∃ r w, rwPrefixAttempt db = .ok (some (.num r), some (.num w)))
            ∧ rwSplit db = rwPrefixAttempt db)
      ∧ (∀ q : Except Unit SqlVal, q = .ok .null →
          safe_single_value q = .ok none) := by
  refine ⟨?_, ?_, ?_, ?_, ?_⟩
  · intro rw h
    unfold rwSplit
    rw [h]
  · intro e h
    unfold rwSplit
    rw [h]
  · constructor
    · rintro ⟨e, he⟩
      unfold rwPrefixAttempt at he
      cases hq1 : qCountWhere db "Transactions" "Command" (likePrefix "READ") with
      | error e1 =>
        exact (qCountWhere_error_iff db "Transactions" "Command"
          (likePrefix "READ")).mp ⟨e1, hq1⟩
      | ok v1 =>
        cases hq2 : qCountWhere db "Transactions" "Command" (likePrefix "WRITE") with
        | error e2 =>
          exact (qCountWhere_error_iff db "Transactions" "Command"
            (likePrefix "WRITE")).mp ⟨e2, hq2⟩
        | ok v2 =>
          rw [hq1, hq2] at he
          simp [safe_single_value, bind, Except.bind, pure, Except.pure] at he
    · intro hsf
      have h1 : ∃ e, qCountWhere db "Transactions" "Command" (likePrefix "READ")
          = .error e :=
        (qCountWhere_error_iff db "Transactions" "Command" (likePrefix "READ")).mpr
          (by rcases hsf with h | h
              · exact Or.inl h
              · exact Or.inr h)
      rcases h1 with ⟨e, he⟩
      refine ⟨e, ?_⟩
      unfold rwPrefixAttempt
      rw [he]
      rfl
  · intro tb hlk hmem
    obtain ⟨vs, hvs⟩ := colValues_isSome_of_mem tb "Command" hmem
    have hq1 : qCountWhere db "Transactions" "Command" (likePrefix "READ")
        = .ok (.num ((vs.filter (likePrefix "READ")).length)) := by
      simp only [qCountWhere, hlk, hvs]
    have hq2 : qCountWhere db "Transactions" "Command" (likePrefix "WRITE")
        = .ok (.num ((vs.filter (likePrefix "WRITE")).length)) := by
      simp only [qCountWhere, hlk, hvs]
    have hpa : rwPrefixAttempt db
        = .ok (some (.num ((vs.filter (likePrefix "READ")).length)),
               some (.num ((vs.filter (likePrefix "WRITE")).length))) := by
      unfold rwPrefixAttempt
      rw [hq1, hq2]
      rfl
    refine ⟨⟨_, _, hpa⟩, ?_⟩
    unfold rwSplit
    rw [hpa]
  · intro q h
    rw [h]
    rfl

/-- Witness for C8 at `healthyDb` (one matching READ row, one WRITE row). -/
theorem rw_split_two_attempts_witness :
    rwSplit healthyDb = .ok (some (.num 1), some (.num 1)) :=
  (rw_split_two_attempts healthyDb).1 (some (.num 1), some (.num 1)) (by decide)

/-!
## C7 — the reason tallier
-/

theorem lookupCount_tallyInsert (acc : List (String × Nat)) (r s : String) :
    lookupCount (tallyInsert acc r) s
      = lookupCount acc s + (if r = s then 1 else 0) := by
  induction acc with
  | nil =>
    by_cases h : r = s
    · subst h; simp [tallyInsert, lookupCount, List.find?]
    · simp [tallyInsert, lookupCount, List.find?, h,
        beq_eq_false_iff_ne.mpr h]
  | cons kv rest ih =>
    obtain ⟨k, n⟩ := kv
    simp only [tallyInsert]
    by_cases hk : k = r
    · subst hk
      rw [if_pos rfl]
      by_cases hs : k = s
      · subst hs; simp [lookupCount, List.find?]
      · simp [lookupCount, List.find?, hs, beq_eq_false_iff_ne.mpr hs]
    · rw [if_neg hk]
      by_cases hs : k = s
      · subst hs
        have hrs : ¬ (r = k) := fun h => hk h.symm
        simp [lookupCount, List.find?, hrs]
      · have h1 : lookupCount ((k, n) :: tallyInsert rest r) s
            = lookupCount (tallyInsert rest r) s := by
          simp [lookupCount, List.find?, beq_eq_false_iff_ne.mpr hs]
        have h2 : lookupCount ((k, n) :: rest) s = lookupCount rest s := by
          simp [lookupCount, List.find?, beq_eq_false_iff_ne.mpr hs]
        rw [h1, h2, ih]

theorem lookupCount_tallyCounts (cells : List (Option String)) (s : String) :
    lookupCount (tallyCounts cells) s = (cells.map normalizeReason).count s := by
  suffices h : ∀ acc, lookupCount
      (cells.foldl (fun a c => tallyInsert a (normalizeReason c)) acc) s
        = lookupCount acc s + (cells.map normalizeReason).count s by
    simpa [tallyCounts, lookupCount] using h []
  induction cells with
  | nil => intro acc; simp
  | cons c cs ih =>
    intro acc
    simp only [List.foldl_cons, List.map_cons]
    rw [ih (tallyInsert acc (normalizeReason c)), lookupCount_tallyInsert,
      List.count_cons]
    by_cases h : normalizeReason c = s
    · simp [h]
      omega
    · simp [h]

theorem tallyInsert_sum (acc : List (String × Nat)) (r : String) :
    ((tallyInsert acc r).map (·.2)).sum = (acc.map (·.2)).sum + 1 := by
  induction acc with
  | nil => simp [tallyInsert]
  | cons kv rest ih =>
    obtain ⟨k, n⟩ := kv
    simp only [tallyInsert]
    by_cases hk : k = r
    · simp only [if_pos hk, List.map_cons, List.sum_cons]
      omega
    · simp only [if_neg hk, List.map_cons, List.sum_cons, ih]
      omega

theorem tallyCounts_total (cells : List (Option String)) :
    ((tallyCounts cells).map (·.2)).sum = cells.length := by
  suffices h : ∀ acc, (((cells.foldl
      (fun a c => tallyInsert a (normalizeReason c)) acc)).map (·.2)).sum
        = (acc.map (·.2)).sum + cells.length by
    simpa [tallyCounts] using h []
  induction cells with
  | nil => intro acc; simp
  | cons c cs ih =>
    intro acc
    simp only [List.foldl_cons, List.length_cons]
    rw [ih (tallyInsert acc (normalizeReason c)), tallyInsert_sum]
    omega

theorem filter_orderedInsert (x : (String × Nat)) (l : List (String × Nat))
    (n : Nat) :
    (List.orderedInsert (fun a b => b.2 ≤ a.2) x l).filter (fun p => p.2 == n)
      = (x :: l).filter (fun p => p.2 == n) := by
  induction l with
  | nil => rfl
  | cons y ys ih =>
    rw [List.orderedInsert]
    by_cases hr : y.2 ≤ x.2
    · rw [if_pos hr]
    · rw [if_neg hr]
      by_cases hy : y.2 = n
      · have hx : x.2 ≠ n := fun hxe => hr (by omega)
        have hy2 : (y.2 == n) = true := beq_iff_eq.mpr hy
        have hx2 : (x.2 == n) = false := beq_eq_false_iff_ne.mpr hx
        simp [List.filter_cons, hy2, hx2, ih]
      · have hy2 : (y.2 == n) = false := beq_eq_false_iff_ne.mpr hy
        simp [List.filter_cons, hy2, ih]

theorem filter_most_common (l : List (String × Nat)) (n : Nat) :
    (most_common l).filter (fun p => p.2 == n) = l.filter (fun p => p.2 == n) := by
  unfold most_common
  induction l with
  | nil => rfl
  | cons x xs ih =>
    rw [List.insertionSort, filter_orderedInsert]
    simp [List.filter_cons, ih]

theorem most_common_sorted (c : List (String × Nat)) :
    (most_common c).Pairwise (fun a b => b.2 ≤ a.2) := by
  haveI : IsTotal (String × Nat) (fun a b => b.2 ≤ a.2) :=
    ⟨fun a b => le_total b.2 a.2⟩
  haveI : IsTrans (String × Nat) (fun a b => b.2 ≤ a.2) :=
    ⟨fun a b c h1 h2 => le_trans h2 h1⟩
  exact List.sorted_insertionSort _ c

/-- C7: the tallier trims each cell, replaces an empty result by the
sentinel, counts occurrences of each resulting literal string, and reports
the distinct reasons sorted by count descending with ties in first-seen
order (the sort only permutes the accumulated counts and leaves every
equal-count band in accumulation order), followed by the separator and the
total row count; on `["A","B","A","","B","A"]` it reports `A: 3`, `B: 2`,
`<EMPTY_REASON_FIELD>: 1` and total 6. -/
theorem summarize_invalid_reasons_spec :
    (summaryLines [some "A", some "B", some "A", some "", some "B", some "A"]
        = ["    3  A", "    2  B", "    1  <EMPTY_REASON_FIELD>",
           sepLine, "Total invalid configs counted: 6"])
      ∧ (∀ cells s, lookupCount (tallyCounts cells) s
            = (cells.map normalizeReason).count s)
      ∧ (∀ cells, ((tallyCounts cells).map (·.2)).sum = cells.length)
      ∧ (∀ c, (most_common c).Pairwise (fun a b => b.2 ≤ a.2))
      ∧ (∀ c n, (most_common c).filter (fun p => p.2 == n)
            = c.filter (fun p => p.2 == n))
      ∧ (∀ c, (most_common c).Perm c) :=
  ⟨by decide, lookupCount_tallyCounts, tallyCounts_total, most_common_sorted,
   fun c n => filter_most_common c n, fun c => List.perm_insertionSort _ c⟩

/-- Witness for C2 at a two-file batch (one good file, one zero-byte file). -/
theorem tdbMain_exactly_once_witness :
    ((tdbMain exampleTdbFiles).filter
        (fun r => r.tdb_path == exampleTdbFile.path)).length
      = if skippedTdb exampleTdbFile then 0 else 1 :=
  tdbMain_exactly_once exampleTdbFiles exampleTdbFile (by decide) (by decide)

end DRAMSys
